import Mathlib

/-!
Shallow embedding of the key-bindings tab synchronization core
(`src/keybindingstab.ts`): the presentation model (`ModelData`), the
broker-notification handlers (`_onKeyBindingChange`, `_setConfig`), the
user-edit write-back (`_dataChanged`), the manager setters
(`setConfigManager`, `setKeyBindingManager`, `detachedCallback`) and the
pure formatting functions (`formatShortcut`, `formatKeyBindingsMapping`).
-/

namespace KeyBindingsTab

/-- `config.KeyBindingInfo`: one entry of `systemConfig.keyBindingsFiles`. -/
structure KeyBindingInfo where
  filename : String
  name : String
deriving DecidableEq, Repr

/-- The part of `SystemConfig` read by this tab. -/
structure SystemConfig where
  keyBindingsFiles : List KeyBindingInfo
deriving DecidableEq, Repr

/-- The part of `config.Config` read and written by this tab. -/
structure Config where
  keyBindingsFilename : String
  systemConfig : SystemConfig
deriving DecidableEq, Repr

/-- `ModelData` (keybindingstab.ts, lines 74-78): the Vue presentation model.
`keyBindingsContextsStamp` is typed `any` in the source and always holds a
`Date.now()` millisecond timestamp, modelled as `Nat`. -/
structure ModelData where
  selectedKeyBindings : String
  keyBindingsFiles : List KeyBindingInfo
  keyBindingsContextsStamp : Nat
deriving DecidableEq, Repr

/-- `_initProperties` (lines 115-124): the initial model; `now` is the
`Date.now()` reading at creation time. -/
def initData (now : Nat) : ModelData :=
  { selectedKeyBindings := ""
    keyBindingsFiles := []
    keyBindingsContextsStamp := now }

/-- `_onKeyBindingChange` (lines 285-287): the KeyBindingManager change
handler assigns `Date.now()` to `keyBindingsContextsStamp`; `now` is the
clock reading at the moment of the call. -/
def onKeyBindingChange (now : Nat) (d : ModelData) : ModelData :=
  { d with keyBindingsContextsStamp := now }

/-- `_setConfig` (lines 289-296): the config-change handler. Replaces
`keyBindingsFiles` only when the lengths differ, and `selectedKeyBindings`
only when the filenames differ. -/
def setConfig (cfg : Config) (d : ModelData) : ModelData :=
  let d1 :=
    if d.keyBindingsFiles.length ≠ cfg.systemConfig.keyBindingsFiles.length then
      { d with keyBindingsFiles := cfg.systemConfig.keyBindingsFiles }
    else d
  if d1.selectedKeyBindings ≠ cfg.keyBindingsFilename then
    { d1 with selectedKeyBindings := cfg.keyBindingsFilename }
  else d1

/-- A config value as the JS runtime may actually deliver it: `systemConfig`
can be `undefined`/`null` (`none`), in which case the property access
`config.systemConfig.keyBindingsFiles` in `_setConfig` raises a `TypeError`. -/
structure ConfigJS where
  keyBindingsFilename : String
  systemConfig : Option SystemConfig
deriving DecidableEq, Repr

/-- `_setConfig` under JS runtime semantics: the handler body has no
try/catch, so a `TypeError` raised by the property access on a missing
`systemConfig` propagates to the caller as an `Except.error`. -/
def setConfigJS (cfg : ConfigJS) (d : ModelData) : Except String ModelData :=
  match cfg.systemConfig with
  | none => .error "TypeError: cannot read keyBindingsFiles of undefined"
  | some sc => .ok (setConfig { keyBindingsFilename := cfg.keyBindingsFilename, systemConfig := sc } d)

/-- `_dataChanged` (lines 302-309): reacts to a user edit of the model.
`stored` is `_configManager.getConfig()` (deep-cloned by the source before
mutation); the result is `some c` when `setConfig(c)` is called on the
config manager, `none` when no call is made. -/
def dataChanged (stored : Config) (newVal : ModelData) : Option Config :=
  let newConfig := stored
  if newConfig.keyBindingsFilename ≠ newVal.selectedKeyBindings then
    some { newConfig with keyBindingsFilename := newVal.selectedKeyBindings }
  else
    none

end KeyBindingsTab

namespace KeyBindingsTab

/-- `code.split(/\+/g)` (line 56): splits a string at every `+` character.
`acc` holds the characters of the current field, reversed. Empty fields are
kept, as with the JS regex split: `"a++b"` gives `["a", "", "b"]` and `""`
gives `[""]`. -/
def splitPlusAux : List Char → List Char → List String
  | [], acc => [String.mk acc.reverse]
  | c :: rest, acc =>
    if c = '+' then String.mk acc.reverse :: splitPlusAux rest []
    else splitPlusAux rest (c :: acc)

/-- `code.split(/\+/g)` (line 56) on a `String`. -/
def splitPlus (s : String) : List String :=
  splitPlusAux s.data []

/-- `formatShortcut` (lines 52-72), token mapping: the `switch` inside the
`map` over the split parts. -/
def mapDarwinToken (p : String) : String :=
  if p = "Cmd" then "⌘"
  else if p = "Shift" then "⇧"
  else if p = "Alt" then "⌥"
  else if p = "Ctrl" then "^"
  else p

/-- `formatShortcut` (lines 52-72). `process.platform` is ambient in the
source and passed here as the `platform` argument. On a platform other than
"darwin" the code is returned unchanged; otherwise it is split on `+`, each
part mapped by the modifier switch, and the parts joined with `""`. -/
def formatShortcut (platform : String) (code : String) : String :=
  if platform ≠ "darwin" then code
  else
    let parts := splitPlus code
    let parts := parts.map mapDarwinToken
    String.join parts

/-- Modelled from the spec: the modifier table of §4.3,
`Cmd→⌘, Shift→⇧, Alt→⌥, Ctrl→^`, as an association list; unrecognized
tokens are left unchanged. Used only to state refinement of
`formatShortcut` against the spec wording. -/
def specModifierTable : List (String × String) :=
  [("Cmd", "⌘"), ("Shift", "⇧"), ("Alt", "⌥"), ("Ctrl", "^")]

/-- Modelled from the spec (§4.3 ShortcutFormatter): on "darwin", split on
`+`, map known modifier tokens through the table, concatenate with no
separator in original order; on any other platform return the code
verbatim. -/
def formatShortcutSpec (platform : String) (code : String) : String :=
  if platform = "darwin" then
    String.join ((splitPlus code).map (fun t =>
      match specModifierTable.find? (fun e => t = e.1) with
      | some e => e.2
      | none => t))
  else code

/-- `commandName` (lines 42-45): looks a command code up in the external
`humanText.commands` table (a parameter here, since the JSON file is outside
this repository) and falls back to the raw code via JS `||`, which also
treats the empty string as falsy. -/
def commandName (commands : String → Option String) (code : String) : String :=
  match commands code with
  | some s => if s = "" then code else s
  | none => code

/-- `Binding`: one entry of a `KeyBindingMapping`'s `keyBindings` array. -/
structure Binding where
  command : String
  shortcut : String
deriving DecidableEq, Repr

/-- The JS `<`/`>` relational operators on strings compare code units
lexicographically; modelled as the lexicographic order on the character
lists. -/
def jsStringLE (a b : String) : Prop :=
  a.data ≤ b.data

instance : DecidableRel jsStringLE :=
  fun a b => inferInstanceAs (Decidable (a.data ≤ b.data))

/-- The comparator of `formatKeyBindingsMapping` (lines 321-325) as the
"less or equal" relation it induces on bindings: the comparator returns
`-1`/`1`/`0` as the resolved names compare `<`/`>`/equal, so a call
returning a non-positive value is exactly `nameA ≤ nameB`. -/
def bindingLE (commands : String → Option String) (a b : Binding) : Prop :=
  jsStringLE (commandName commands a.command) (commandName commands b.command)

instance (commands : String → Option String) : DecidableRel (bindingLE commands) :=
  fun a b => inferInstanceAs (Decidable (jsStringLE (commandName commands a.command) (commandName commands b.command)))

instance (commands : String → Option String) : IsTotal Binding (bindingLE commands) :=
  ⟨fun a b => le_total (commandName commands a.command).data (commandName commands b.command).data⟩

instance (commands : String → Option String) : IsTrans Binding (bindingLE commands) :=
  ⟨fun _ _ _ hab hbc => le_trans hab hbc⟩

/-- The `bindings.sort(...)` step of `formatKeyBindingsMapping` (lines
320-325): sorts a binding list with the comparator. ECMAScript `sort` is a
stable comparator sort (algorithm unspecified); it is modelled by a stable
sort with the comparator's induced order. -/
def sortBindings (commands : String → Option String) (bindings : List Binding) : List Binding :=
  List.insertionSort (bindingLE commands) bindings

/-- One rendered row of `formatKeyBindingsMapping` (lines 333-336):
resolved command name, formatted shortcut, raw command code. -/
def formatBindingRow (commands : String → Option String) (platform : String) (b : Binding) : String :=
  "<tr>\n        <td class=\"col-md-7\">" ++ commandName commands b.command ++
  "</td>\n        <td class=\"col-md-2\"><div class=\x27CLASS_KEYCAP\x27><span>" ++
  formatShortcut platform b.shortcut ++
  "</span></div></td>\n        <td class=\"col-md-3\">" ++ b.command ++ "</td></tr>"

/-- The row list of `formatKeyBindingsMapping`, in render order. -/
def formatKeyBindingsRows (commands : String → Option String) (platform : String)
    (bindings : List Binding) : List String :=
  (sortBindings commands bindings).map (formatBindingRow commands platform)

/-- The resolved command labels of the rendered rows, in render order. -/
def renderedLabels (commands : String → Option String) (bindings : List Binding) : List String :=
  (sortBindings commands bindings).map (fun b => commandName commands b.command)

/-- `formatKeyBindingsMapping` (lines 319-338) on an already-cloned binding
list: table header, sorted rows joined by newline, closing tag. -/
def formatKeyBindingsMapping (commands : String → Option String) (platform : String)
    (bindings : List Binding) : String :=
  "<table class=\x27table\x27>\n    <tr>\n      <th class=\"col-md-7\">Command</th>\n      <th class=\"col-md-2\">Shortcut</th>\n      <th class=\"col-md-3\">Code</th>\n    </tr>" ++
  String.intercalate "\n" (formatKeyBindingsRows commands platform bindings) ++
  "</table>"

/-- A register/unregister call issued by the tab against one of the two
managers (brokers); managers are identified by `Nat` ids. -/
inductive BrokerCall where
  | registerConfig (mgr : Nat)
  | unregisterConfig (mgr : Nat)
  | registerKeyBinding (mgr : Nat)
  | unregisterKeyBinding (mgr : Nat)
deriving DecidableEq, Repr

/-- The tab's own listener-related fields: `_configManager`,
`_keyBindingManager` (both nullable) and the model `_data`. -/
structure TabState where
  configManager : Option Nat
  keyBindingManager : Option Nat
  data : ModelData
deriving DecidableEq, Repr

/-- `createdCallback` / `_initProperties` (lines 115-124, 203-205). -/
def createdTab (now : Nat) : TabState :=
  { configManager := none, keyBindingManager := none, data := initData now }

/-- `setKeyBindingManager` (lines 137-146): unregisters from the previous
manager when one is set, stores the new manager, and registers on it when it
is non-null. Returns the new state and the broker calls issued, in order. -/
def setKeyBindingManager (newMgr : Option Nat) (t : TabState) : TabState × List BrokerCall :=
  let pre := match t.keyBindingManager with
    | some old => [BrokerCall.unregisterKeyBinding old]
    | none => []
  let post := match newMgr with
    | some m => [BrokerCall.registerKeyBinding m]
    | none => []
  ({ t with keyBindingManager := newMgr }, pre ++ post)

/-- `setConfigManager` (lines 164-170): stores the manager, registers one
change listener on it, and immediately applies the manager's current config
(`cfg`) to the model. No check of a previous manager, no unregister. -/
def setConfigManager (mgr : Nat) (cfg : Config) (t : TabState) : TabState × List BrokerCall :=
  ({ t with configManager := some mgr, data := setConfig cfg t.data },
   [BrokerCall.registerConfig mgr])

/-- `detachedCallback` (lines 264-272): unregisters from each manager that
is set. -/
def detachedCallback (t : TabState) : List BrokerCall :=
  (match t.configManager with
    | some m => [BrokerCall.unregisterConfig m]
    | none => []) ++
  (match t.keyBindingManager with
    | some m => [BrokerCall.unregisterKeyBinding m]
    | none => [])

/-- The spec's §3 invariant on the presentation model: `selectedProfile` is
one of the available profiles' filenames, or the empty string. -/
def modelInvariant (d : ModelData) : Prop :=
  d.selectedKeyBindings = "" ∨
    d.selectedKeyBindings ∈ d.keyBindingsFiles.map (fun f => f.filename)

instance (d : ModelData) : Decidable (modelInvariant d) := by
  unfold modelInvariant; infer_instance

/-- A heap of JS arrays of bindings, for reasoning about in-place mutation:
each array is a slot, referenced by its index. -/
abbrev Store : Type := List (List Binding)

/-- `_.clone(context.keyBindings)` (line 320): allocates a fresh array with
the same contents and returns the new reference. -/
def jsClone (s : Store) (r : Nat) : Store × Nat :=
  (s ++ [s.getD r []], s.length)

/-- `bindings.sort(cmp)` (lines 321-325): JS `Array.prototype.sort` mutates
the array in place, replacing the contents at reference `r` by the sorted
permutation determined by the comparator. -/
def jsSortInPlace (commands : String → Option String) (s : Store) (r : Nat) : Store :=
  s.set r (sortBindings commands (s.getD r []))

/-- `formatKeyBindingsMapping` (lines 319-338) with the mutation made
explicit: the caller's binding array lives at reference `r` in the store;
the function clones it, sorts the clone in place, renders from the clone,
and returns the HTML together with the final store. -/
def formatKeyBindingsMappingAt (commands : String → Option String) (platform : String)
    (s : Store) (r : Nat) : String × Store :=
  let cloned := jsClone s r
  let s1 := cloned.1
  let r1 := cloned.2
  let s2 := jsSortInPlace commands s1 r1
  ("<table class=\x27table\x27>\n    <tr>\n      <th class=\"col-md-7\">Command</th>\n      <th class=\"col-md-2\">Shortcut</th>\n      <th class=\"col-md-3\">Code</th>\n    </tr>" ++
   String.intercalate "\n" ((s2.getD r1 []).map (formatBindingRow commands platform)) ++
   "</table>", s2)

end KeyBindingsTab

/-! ## Theorems -/

namespace KeyBindingsTab

/-- Helper for C8: the source's modifier `switch` agrees pointwise with the
spec's modifier table lookup. -/
theorem mapDarwinToken_eq_table (t : String) :
    mapDarwinToken t = (match specModifierTable.find? (fun e => t = e.1) with
      | some e => e.2 | none => t) := by
  unfold mapDarwinToken specModifierTable
  by_cases h1 : t = "Cmd" <;> by_cases h2 : t = "Shift" <;> by_cases h3 : t = "Alt" <;>
    by_cases h4 : t = "Ctrl" <;> simp_all [List.find?]

/-- Helper for C8: `formatShortcut` refines the spec's description of the
ShortcutFormatter on every platform and code. -/
theorem formatShortcut_refines (platform code : String) :
    formatShortcut platform code = formatShortcutSpec platform code := by
  unfold formatShortcut formatShortcutSpec
  by_cases h : platform = "darwin"
  · simp only [h, ite_true, ne_eq, not_true_eq_false, ite_false]
    have he : mapDarwinToken = (fun t =>
        match specModifierTable.find? (fun e => t = e.1) with
        | some e => e.2 | none => t) := funext mapDarwinToken_eq_table
    rw [he]
  · simp [h]

/-- C8: on every platform other than "darwin" the shortcut formatter returns
the code unchanged; on "darwin" it splits on `+`, maps `Cmd`, `Shift`,
`Alt`, `Ctrl` to `⌘`, `⇧`, `⌥`, `^`, leaves other tokens unchanged and
concatenates in order (stated as agreement with `formatShortcutSpec`, the
direct transcription of the spec's wording); in particular
`"Cmd+Shift+K"` renders as `"⌘⇧K"` on darwin and unchanged on linux. -/
theorem formatShortcut_conforms :
    (∀ platform code, platform ≠ "darwin" → formatShortcut platform code = code) ∧
    (∀ platform code, formatShortcut platform code = formatShortcutSpec platform code) ∧
    formatShortcut "darwin" "Cmd+Shift+K" = "⌘⇧K" ∧
    formatShortcut "linux" "Cmd+Shift+K" = "Cmd+Shift+K" := by
  refine ⟨?_, formatShortcut_refines, by decide, by decide⟩
  intro platform code h
  unfold formatShortcut
  simp [h]

/-- Witness for C8: the non-darwin passthrough at a concrete input. -/
theorem formatShortcut_conforms_witness :
    ("linux" : String) ≠ "darwin" ∧ formatShortcut "linux" "Ctrl+C" = "Ctrl+C" :=
  ⟨by decide, formatShortcut_conforms.1 "linux" "Ctrl+C" (by decide)⟩

/-- The label table of the concrete example of C9:
`{zoom: "Zoom", copy: "Copy"}`. -/
def zoomCopyLabels : String → Option String := fun c =>
  if c = "zoom" then some "Zoom" else if c = "copy" then some "Copy" else none

/-- C9: for every binding mapping and label table, the rows rendered by
`formatKeyBindingsMapping` are in non-decreasing order of resolved command
label under simple code-unit comparison; the example
`[zoom, copy]` with labels `{zoom: "Zoom", copy: "Copy"}` renders in the
order `[copy, zoom]`. -/
theorem formatKeyBindings_rows_sorted :
    (∀ (commands : String → Option String) (bindings : List Binding),
      List.Pairwise (fun a b : String => jsStringLE a b) (renderedLabels commands bindings)) ∧
    renderedLabels zoomCopyLabels
      [{ command := "zoom", shortcut := "Ctrl+Z" }, { command := "copy", shortcut := "Ctrl+C" }] =
      ["Copy", "Zoom"] ∧
    sortBindings zoomCopyLabels
      [{ command := "zoom", shortcut := "Ctrl+Z" }, { command := "copy", shortcut := "Ctrl+C" }] =
      [{ command := "copy", shortcut := "Ctrl+C" }, { command := "zoom", shortcut := "Ctrl+Z" }] := by
  refine ⟨?_, by decide, by decide⟩
  intro commands bindings
  unfold renderedLabels sortBindings
  have hs : List.Sorted (bindingLE commands) (List.insertionSort (bindingLE commands) bindings) :=
    List.sorted_insertionSort _ _
  exact List.Pairwise.map _ (fun a b h => h) hs

/-- C10: formatting a context's binding table mutates only the clone: every
slot of the store that existed before the call (in particular the caller's
binding array at reference `r`) holds exactly the same elements in the same
order afterwards. -/
theorem formatKeyBindingsMappingAt_preserves_input (commands : String → Option String)
    (platform : String) (s : Store) (r : Nat) :
    ∀ i, i < s.length →
      ((formatKeyBindingsMappingAt commands platform s r).2).getD i [] = s.getD i [] := by
  intro i hi
  unfold formatKeyBindingsMappingAt jsClone jsSortInPlace
  simp only [List.getD, List.get?_eq_getElem?]
  rw [List.getElem?_set_ne (by omega)]
  rw [List.getElem?_append_left hi]

/-- Witness for C10: a one-array store is unchanged at its only slot. -/
theorem formatKeyBindingsMappingAt_preserves_input_witness :
    (0 : Nat) < ([[{ command := "b", shortcut := "s" }]] : Store).length ∧
    ((formatKeyBindingsMappingAt (fun _ => none) "linux"
        [[{ command := "b", shortcut := "s" }]] 0).2).getD 0 [] =
      ([[{ command := "b", shortcut := "s" }]] : Store).getD 0 [] :=
  ⟨by decide,
   formatKeyBindingsMappingAt_preserves_input (fun _ => none) "linux"
     [[{ command := "b", shortcut := "s" }]] 0 0 (by decide)⟩

end KeyBindingsTab

namespace KeyBindingsTab

/-- C1 (counterexample): `_onKeyBindingChange` does not increment the
revision field by 1 per call. Two invocations with the clock standing at 5
on a model whose stamp is already 5 leave the stamp at 5: the total change
is 0, not 2 as the claim requires for N = 2. -/
theorem onKeyBindingChange_not_unit_increment :
    (onKeyBindingChange 5 (onKeyBindingChange 5 (initData 5))).keyBindingsContextsStamp = 5 ∧
    ¬ ((onKeyBindingChange 5 (onKeyBindingChange 5 (initData 5))).keyBindingsContextsStamp =
        (initData 5).keyBindingsContextsStamp + 2) := by
  decide

/-- C1 (amended): each invocation of `_onKeyBindingChange` sets
`keyBindingsContextsStamp` to the current `Date.now()` reading; the stamp
never decreases provided the clock reading is at least the stored stamp, but
the change over N invocations is the elapsed clock time, not N. -/
theorem onKeyBindingChange_sets_clock (now : Nat) (d : ModelData) :
    (onKeyBindingChange now d).keyBindingsContextsStamp = now ∧
    (d.keyBindingsContextsStamp ≤ now →
      d.keyBindingsContextsStamp ≤ (onKeyBindingChange now d).keyBindingsContextsStamp) := by
  exact ⟨rfl, fun h => h⟩

/-- Witness for C1 (amended): clock at 7, stored stamp 3. -/
theorem onKeyBindingChange_sets_clock_witness :
    (onKeyBindingChange 7 (initData 3)).keyBindingsContextsStamp = 7 ∧
    (initData 3).keyBindingsContextsStamp ≤
      (onKeyBindingChange 7 (initData 3)).keyBindingsContextsStamp :=
  ⟨(onKeyBindingChange_sets_clock 7 (initData 3)).1,
   (onKeyBindingChange_sets_clock 7 (initData 3)).2 (by decide)⟩

/-- C2 (counterexample): selecting `"ghost"`, a filename not among the
model's profiles, does not fail and is not discarded: `_dataChanged` submits
a config carrying `keyBindingsFilename = "ghost"` to the config manager. No
`UnknownProfileError` exists anywhere in the source. -/
theorem dataChanged_unknown_profile_submits :
    ("ghost" ∉ (([{ filename := "a", name := "A" }] : List KeyBindingInfo).map
        (fun f => f.filename))) ∧
    dataChanged
        { keyBindingsFilename := "a",
          systemConfig := { keyBindingsFiles := [{ filename := "a", name := "A" }] } }
        { selectedKeyBindings := "ghost",
          keyBindingsFiles := [{ filename := "a", name := "A" }],
          keyBindingsContextsStamp := 0 } =
      some { keyBindingsFilename := "ghost",
             systemConfig := { keyBindingsFiles := [{ filename := "a", name := "A" }] } } := by
  decide

/-- C2 (amended): `_dataChanged` performs no membership validation: for any
selected filename absent from the model's profile list that differs from
the stored `keyBindingsFilename`, it still calls `setConfig` with a clone of
the stored config whose `keyBindingsFilename` is replaced by the selection;
nothing fails and nothing is discarded. -/
theorem dataChanged_no_validation (stored : Config) (d : ModelData)
    (_hmem : d.selectedKeyBindings ∉ d.keyBindingsFiles.map (fun f => f.filename))
    (hne : stored.keyBindingsFilename ≠ d.selectedKeyBindings) :
    dataChanged stored d =
      some { stored with keyBindingsFilename := d.selectedKeyBindings } := by
  unfold dataChanged
  simp [hne]

/-- Witness for C2 (amended): selecting `"phantom"` against a one-profile
model. -/
theorem dataChanged_no_validation_witness :
    ("phantom" ∉ (([{ filename := "p", name := "P" }] : List KeyBindingInfo).map
        (fun f => f.filename))) ∧
    dataChanged
        { keyBindingsFilename := "p", systemConfig := { keyBindingsFiles := [] } }
        { selectedKeyBindings := "phantom",
          keyBindingsFiles := [{ filename := "p", name := "P" }],
          keyBindingsContextsStamp := 1 } =
      some { keyBindingsFilename := "phantom", systemConfig := { keyBindingsFiles := [] } } :=
  ⟨by decide,
   dataChanged_no_validation
     { keyBindingsFilename := "p", systemConfig := { keyBindingsFiles := [] } }
     { selectedKeyBindings := "phantom",
       keyBindingsFiles := [{ filename := "p", name := "P" }],
       keyBindingsContextsStamp := 1 }
     (by decide) (by decide)⟩

/-- C3: when the selected filename equals the stored
`keyBindingsFilename`, `_dataChanged` makes no `setConfig` call on the
config manager (no-op idempotence: the write-back happens only when the
selection differs from the stored value). -/
theorem dataChanged_noop_on_stored_filename (stored : Config) (d : ModelData)
    (h : d.selectedKeyBindings = stored.keyBindingsFilename) :
    dataChanged stored d = none := by
  unfold dataChanged
  simp [h]

/-- Witness for C3: re-selecting the stored profile submits nothing. -/
theorem dataChanged_noop_on_stored_filename_witness :
    ({ selectedKeyBindings := "k",
       keyBindingsFiles := [{ filename := "k", name := "K" }],
       keyBindingsContextsStamp := 2 } : ModelData).selectedKeyBindings =
      ({ keyBindingsFilename := "k",
         systemConfig := { keyBindingsFiles := [{ filename := "k", name := "K" }] } } : Config).keyBindingsFilename ∧
    dataChanged
        { keyBindingsFilename := "k",
          systemConfig := { keyBindingsFiles := [{ filename := "k", name := "K" }] } }
        { selectedKeyBindings := "k",
          keyBindingsFiles := [{ filename := "k", name := "K" }],
          keyBindingsContextsStamp := 2 } = none :=
  ⟨by decide,
   dataChanged_noop_on_stored_filename
     { keyBindingsFilename := "k",
       systemConfig := { keyBindingsFiles := [{ filename := "k", name := "K" }] } }
     { selectedKeyBindings := "k",
       keyBindingsFiles := [{ filename := "k", name := "K" }],
       keyBindingsContextsStamp := 2 }
     (by decide)⟩

end KeyBindingsTab

namespace KeyBindingsTab

/-- C4 (counterexample): a second `setConfigManager` call without an
intervening detach does not fail: it issues a second `registerChangeListener`
call, so the tab now holds two live registrations (the first is never
unregistered). No `AlreadyAttachedError` exists anywhere in the source. -/
theorem setConfigManager_twice_no_error :
    (setConfigManager 0
        { keyBindingsFilename := "a", systemConfig := { keyBindingsFiles := [] } }
        (createdTab 0)).2 = [BrokerCall.registerConfig 0] ∧
    (setConfigManager 1
        { keyBindingsFilename := "a", systemConfig := { keyBindingsFiles := [] } }
        (setConfigManager 0
          { keyBindingsFilename := "a", systemConfig := { keyBindingsFiles := [] } }
          (createdTab 0)).1).2 = [BrokerCall.registerConfig 1] := by
  decide

/-- C4 (amended): neither setter can fail. `setConfigManager` registers
exactly one listener on the config manager per call and never unregisters a
previous one; `setKeyBindingManager` first unregisters from the previous
key-binding manager when one is set, then registers exactly one listener on
the new one. -/
theorem managerSetters_registration (t : TabState) (mgr : Nat) (cfg : Config) (m : Nat) :
    (setConfigManager mgr cfg t).2 = [BrokerCall.registerConfig mgr] ∧
    (t.keyBindingManager = none →
      (setKeyBindingManager (some m) t).2 = [BrokerCall.registerKeyBinding m]) ∧
    (∀ old, t.keyBindingManager = some old →
      (setKeyBindingManager (some m) t).2 =
        [BrokerCall.unregisterKeyBinding old, BrokerCall.registerKeyBinding m]) := by
  refine ⟨rfl, ?_, ?_⟩
  · intro h
    unfold setKeyBindingManager
    rw [h]
    rfl
  · intro old h
    unfold setKeyBindingManager
    rw [h]
    rfl

/-- Witness for C4 (amended): a fresh tab, then a tab already holding a
key-binding manager. -/
theorem managerSetters_registration_witness :
    (setConfigManager 4
        { keyBindingsFilename := "k", systemConfig := { keyBindingsFiles := [] } }
        (createdTab 1)).2 = [BrokerCall.registerConfig 4] ∧
    (setKeyBindingManager (some 2) (createdTab 1)).2 = [BrokerCall.registerKeyBinding 2] ∧
    (setKeyBindingManager (some 3)
        { configManager := none, keyBindingManager := some 9, data := initData 1 }).2 =
      [BrokerCall.unregisterKeyBinding 9, BrokerCall.registerKeyBinding 3] :=
  ⟨(managerSetters_registration (createdTab 1) 4
      { keyBindingsFilename := "k", systemConfig := { keyBindingsFiles := [] } } 2).1,
   (managerSetters_registration (createdTab 1) 4
      { keyBindingsFilename := "k", systemConfig := { keyBindingsFiles := [] } } 2).2.1 rfl,
   (managerSetters_registration
      { configManager := none, keyBindingManager := some 9, data := initData 1 } 4
      { keyBindingsFilename := "k", systemConfig := { keyBindingsFiles := [] } } 3).2.2 9 rfl⟩

/-- C5: on a config-change notification `_setConfig` leaves the revision
stamp untouched, replaces `keyBindingsFiles` exactly when the list lengths
differ, replaces `selectedKeyBindings` exactly when it differs from the
config's `keyBindingsFilename`, and when neither check fires the model is
exactly unchanged. -/
theorem setConfig_update_conditions (cfg : Config) (d : ModelData) :
    (setConfig cfg d).keyBindingsContextsStamp = d.keyBindingsContextsStamp ∧
    (d.keyBindingsFiles.length = cfg.systemConfig.keyBindingsFiles.length →
      (setConfig cfg d).keyBindingsFiles = d.keyBindingsFiles) ∧
    (d.keyBindingsFiles.length ≠ cfg.systemConfig.keyBindingsFiles.length →
      (setConfig cfg d).keyBindingsFiles = cfg.systemConfig.keyBindingsFiles) ∧
    (d.selectedKeyBindings = cfg.keyBindingsFilename →
      (setConfig cfg d).selectedKeyBindings = d.selectedKeyBindings) ∧
    (d.selectedKeyBindings ≠ cfg.keyBindingsFilename →
      (setConfig cfg d).selectedKeyBindings = cfg.keyBindingsFilename) ∧
    (d.keyBindingsFiles.length = cfg.systemConfig.keyBindingsFiles.length →
      d.selectedKeyBindings = cfg.keyBindingsFilename →
      setConfig cfg d = d) := by
  unfold setConfig
  by_cases h1 : d.keyBindingsFiles.length = cfg.systemConfig.keyBindingsFiles.length <;>
    by_cases h2 : d.selectedKeyBindings = cfg.keyBindingsFilename <;>
      simp_all

/-- Witness for C5: one call where both checks fire and one where neither
does. -/
theorem setConfig_update_conditions_witness :
    (setConfig { keyBindingsFilename := "b",
                 systemConfig := { keyBindingsFiles := [{ filename := "b", name := "B" }] } }
        (initData 0)).keyBindingsFiles = [{ filename := "b", name := "B" }] ∧
    (setConfig { keyBindingsFilename := "b",
                 systemConfig := { keyBindingsFiles := [{ filename := "b", name := "B" }] } }
        (initData 0)).selectedKeyBindings = "b" ∧
    setConfig { keyBindingsFilename := "", systemConfig := { keyBindingsFiles := [] } }
        (initData 0) = initData 0 :=
  ⟨(setConfig_update_conditions
      { keyBindingsFilename := "b",
        systemConfig := { keyBindingsFiles := [{ filename := "b", name := "B" }] } }
      (initData 0)).2.2.1 (by decide),
   (setConfig_update_conditions
      { keyBindingsFilename := "b",
        systemConfig := { keyBindingsFiles := [{ filename := "b", name := "B" }] } }
      (initData 0)).2.2.2.2.1 (by decide),
   (setConfig_update_conditions
      { keyBindingsFilename := "", systemConfig := { keyBindingsFiles := [] } }
      (initData 0)).2.2.2.2.2 (by decide) (by decide)⟩

end KeyBindingsTab

namespace KeyBindingsTab

/-- C6 (counterexample): the invariant "selectedProfile is one of
availableProfiles' filenames or empty" is not preserved. Starting from a
model satisfying it, a config whose own filename is a member of its own
profile list still breaks it: the lists have equal length (1 = 1), so
`_setConfig` keeps the old list, yet replaces `selectedKeyBindings` by
`"b"`, which is not in the kept list `[a]`. -/
theorem setConfig_invariant_violated :
    modelInvariant
      { selectedKeyBindings := "a",
        keyBindingsFiles := [{ filename := "a", name := "A" }],
        keyBindingsContextsStamp := 0 } ∧
    ("b" ∈ (([{ filename := "b", name := "B" }] : List KeyBindingInfo).map
        (fun f => f.filename))) ∧
    ¬ modelInvariant
        (setConfig
          { keyBindingsFilename := "b",
            systemConfig := { keyBindingsFiles := [{ filename := "b", name := "B" }] } }
          { selectedKeyBindings := "a",
            keyBindingsFiles := [{ filename := "a", name := "A" }],
            keyBindingsContextsStamp := 0 }) := by
  decide

/-- C6 (amended): the invariant holds in the initial model, and `_setConfig`
re-establishes it whenever the length check fires (so the profile list is
replaced together with the selection) and the config's filename is empty or
one of the config's own profiles; but when the incoming list has the same
length as the current one with different contents, `_setConfig` can leave
`selectedKeyBindings` outside `keyBindingsFiles`. -/
theorem setConfig_invariant_conditional :
    (∀ now, modelInvariant (initData now)) ∧
    (∀ (cfg : Config) (d : ModelData),
      d.keyBindingsFiles.length ≠ cfg.systemConfig.keyBindingsFiles.length →
      (cfg.keyBindingsFilename = "" ∨
        cfg.keyBindingsFilename ∈ cfg.systemConfig.keyBindingsFiles.map (fun f => f.filename)) →
      modelInvariant (setConfig cfg d)) := by
  constructor
  · intro now
    exact Or.inl rfl
  · intro cfg d h1 h2
    unfold setConfig modelInvariant
    by_cases h3 : d.selectedKeyBindings = cfg.keyBindingsFilename <;> simp_all

/-- Witness for C6 (amended): initial model, then a config replacing the
empty list by one profile that carries its own selected filename. -/
theorem setConfig_invariant_conditional_witness :
    modelInvariant (initData 4) ∧
    modelInvariant
      (setConfig
        { keyBindingsFilename := "c",
          systemConfig := { keyBindingsFiles := [{ filename := "c", name := "C" }] } }
        (initData 4)) :=
  ⟨setConfig_invariant_conditional.1 4,
   setConfig_invariant_conditional.2
     { keyBindingsFilename := "c",
       systemConfig := { keyBindingsFiles := [{ filename := "c", name := "C" }] } }
     (initData 4) (by decide) (by decide)⟩

/-- C7 (counterexample): the config-change handler has no try/catch: on a
snapshot whose `systemConfig` is missing, the property access inside
`_setConfig` raises a `TypeError` that propagates to the caller, and the
update is dropped (no model state is produced), rather than being caught,
logged and treated as changed. -/
theorem setConfigJS_error_escapes :
    setConfigJS { keyBindingsFilename := "x", systemConfig := none } (initData 0) =
      Except.error "TypeError: cannot read keyBindingsFiles of undefined" ∧
    (setConfigJS { keyBindingsFilename := "x", systemConfig := none } (initData 0)).isOk = false := by
  exact ⟨rfl, rfl⟩

/-- C7 (amended): the handler performs no catching at all; it fails exactly
on snapshots with a missing `systemConfig`, and on every well-formed
snapshot it completes normally with the pure `_setConfig` result. -/
theorem setConfigJS_total_on_wellformed (cfg : ConfigJS) (d : ModelData) (sc : SystemConfig)
    (h : cfg.systemConfig = some sc) :
    setConfigJS cfg d =
      Except.ok (setConfig { keyBindingsFilename := cfg.keyBindingsFilename, systemConfig := sc } d) := by
  unfold setConfigJS
  rw [h]

/-- Witness for C7 (amended): a present `systemConfig` yields a normal
completion. -/
theorem setConfigJS_total_on_wellformed_witness :
    ({ keyBindingsFilename := "y", systemConfig := some { keyBindingsFiles := [] } } : ConfigJS).systemConfig =
      some { keyBindingsFiles := [] } ∧
    setConfigJS { keyBindingsFilename := "y", systemConfig := some { keyBindingsFiles := [] } }
        (initData 2) =
      Except.ok (setConfig { keyBindingsFilename := "y", systemConfig := { keyBindingsFiles := [] } }
        (initData 2)) :=
  ⟨rfl,
   setConfigJS_total_on_wellformed
     { keyBindingsFilename := "y", systemConfig := some { keyBindingsFiles := [] } }
     (initData 2) { keyBindingsFiles := [] } rfl⟩

end KeyBindingsTab
